import Mathlib

/-!
Shallow embedding of the aggregation-and-clustering pipeline of
`ionut94/electionRo25` (files `src/backend/update_data.py` and
`src/backend/app.py`), together with theorems settling the frozen claims.

Modelling conventions:
* Machine floats are modelled as rationals (ℚ).  Python's `round(x, d)`
  (and pandas `.round()`) round half to even on binary floats; we model
  decimal rounding with Mathlib's `round` (round half up).  Every claim
  below either uses the same rounding model on both sides of an equality
  or only needs `|round y - y| ≤ 1/2`, which holds for either tie rule.
* `pandas` missing values (NaN) in a column are modelled as `Option`:
  `none` is a missing / non-numeric cell, `some n` a numeric one.
* Exceptions raised by the runtime inside a `try` block are modelled by
  explicit Boolean event fields on the input (`aggRaise`, `stationsRaise`):
  the shallow embedding cannot predict which pandas call throws, but the
  claims under test are about the control flow that an exception takes,
  which these events reproduce faithfully.
-/

namespace ElectionRo

/-- `round(x, 2)` of Python, on rationals. -/
def round2 (q : ℚ) : ℚ := (round (q * 100) : ℚ) / 100

/-- `round(x, 1)` of Python, on rationals. -/
def round1 (q : ℚ) : ℚ := (round (q * 10) : ℚ) / 10

/-- Python `int(x)`: truncation toward zero. -/
def truncQ (q : ℚ) : ℤ := if 0 ≤ q then ⌊q⌋ else ⌈q⌉

/-! ## `update_data.py`: county name normalisation (lines 26-50) -/

/-- Python `str.upper()` on the ASCII range (all names in the fixed table
are ASCII). -/
def upperChar (c : Char) : Char :=
  if 'a' ≤ c ∧ c ≤ 'z' then Char.ofNat (c.toNat - 32) else c

def upperStr (s : String) : String := ⟨s.data.map upperChar⟩

/-- Python `str.strip()`: drop leading and trailing whitespace. -/
def trimStr (s : String) : String :=
  ⟨((s.data.dropWhile (fun c => c.isWhitespace)).reverse.dropWhile
      (fun c => c.isWhitespace)).reverse⟩

/-- The canonical county list `COUNTIES` (update_data.py lines 26-33). -/
def COUNTIES : List String :=
  ["Alba", "Arad", "Arges", "Bacau", "Bihor", "Bistrita-Nasaud", "Botosani",
   "Brasov", "Braila", "Buzau", "Caras-Severin", "Calarasi", "Cluj", "Constanta",
   "Covasna", "Dambovita", "Dolj", "Galati", "Giurgiu", "Gorj", "Harghita",
   "Hunedoara", "Ialomita", "Iasi", "Ilfov", "Maramures", "Mehedinti", "Mures",
   "Neamt", "Olt", "Prahova", "Satu Mare", "Salaj", "Sibiu", "Suceava", "Teleorman",
   "Timis", "Tulcea", "Vaslui", "Valcea", "Vrancea", "Bucharest"]

/-- `COUNTY_NAME_MAP` (update_data.py lines 37-42): uppercased canonical
names mapped to themselves, plus four explicit variant spellings. -/
def COUNTY_NAME_MAP : List (String × String) :=
  (COUNTIES.map (fun c => (upperStr c, c))) ++
  [("BUCURESTI", "Bucharest"),
   ("CARAS SEVERIN", "Caras-Severin"),
   ("BISTRITA NASAUD", "Bistrita-Nasaud"),
   ("SATU-MARE", "Satu Mare")]

/-- `get_full_county_name` (update_data.py lines 45-50).  `none` models a
value for which `pd.isna(name)` holds. -/
def get_full_county_name (name : Option String) : String :=
  match name with
  | none => "Unknown"
  | some s =>
      match (COUNTY_NAME_MAP.lookup (trimStr (upperStr s))) with
      | some full => full
      | none => trimStr s

/-! ## `update_data.py`: `process_presence_data` (lines 52-215)

One group of the `df.groupby('Judet_Full')` loop is a list of rows of the
source CSV.  Each row carries the numeric columns the aggregation reads;
the ten gender-age columns are `Option ℤ` because `safe_sum_multiple`
passes them through `pd.to_numeric(errors='coerce').dropna()` (a
non-numeric cell becomes NaN and is dropped). -/

structure PRow where
  registered : ℤ                 -- column 'Înscriși pe liste permanente'
  votes : ℤ                      -- column 'LT'
  maleAge : Fin 5 → Option ℤ     -- columns 'Barbati 18-24' .. 'Barbati 65+'
  femaleAge : Fin 5 → Option ℤ   -- columns 'Femei 18-24' .. 'Femei 65+'
  mediu : Option String          -- column 'Mediu' ('U' / 'R'); none = NaN
  stationId : ℤ                  -- column 'Nr sectie de votare'
deriving DecidableEq

/-- `county_df[col].sum()` for the two plain numeric columns. -/
def totalVoters (rows : List PRow) : ℤ := (rows.map (·.registered)).sum

def votesCast (rows : List PRow) : ℤ := (rows.map (·.votes)).sum

/-- Line 125: `(votes_cast / total_voters * 100) if total_voters > 0 else 0`. -/
def attendanceRaw (rows : List PRow) : ℚ :=
  if 0 < totalVoters rows then
    (votesCast rows : ℚ) / (totalVoters rows : ℚ) * 100
  else 0

/-- `pd.to_numeric(col, errors='coerce').dropna().sum()` for one column:
missing and non-numeric cells (`none`) are dropped, the rest summed.
The sum of an empty series is `0`, never NaN. -/
def colSum (vals : List (Option ℤ)) : ℤ := (vals.filterMap id).sum

/-- `safe_sum_multiple` (update_data.py lines 128-134).  `total` starts at
the number `0` and each added term is a (never-NaN) column sum, so the
`pd.notna(total)` test on line 134 is always true and the `None` branch is
dead; the `Option ℚ`-valued accumulator makes that branch visible. -/
def safe_sum_multiple (colVals : List (List (Option ℤ))) : Option ℤ :=
  let total : Option ℤ :=
    colVals.foldl (fun acc vals => Option.map (fun t => t + colSum vals) acc) (some 0)
  match total with
  | some t => some t      -- `int(total)` when `pd.notna(total)`
  | none => none          -- `None` otherwise (unreachable)

/-- The per-column value lists of the five male age-band columns. -/
def maleColVals (rows : List PRow) : List (List (Option ℤ)) :=
  (List.finRange 5).map (fun i => rows.map (fun r => r.maleAge i))

def femaleColVals (rows : List PRow) : List (List (Option ℤ)) :=
  (List.finRange 5).map (fun i => rows.map (fun r => r.femaleAge i))

/-- Value lists for one age group, both genders (lines 77-83, 151-152). -/
def ageColVals (rows : List PRow) (i : Fin 5) : List (List (Option ℤ)) :=
  [rows.map (fun r => r.maleAge i), rows.map (fun r => r.femaleAge i)]

/-- Lines 159-162: number of distinct station ids whose 'Mediu' value,
as a string, uppercases to the given marker ('U' or 'R'); a NaN cell
stringifies to "nan" and matches neither. -/
def stationsOfType (rows : List PRow) (marker : String) : ℕ :=
  (((rows.filter (fun r => (r.mediu.getD "nan").toUpper = marker)).map
    (·.stationId)).dedup).length

/-- One group of the `groupby` loop, with the two exception events that the
claims are about: `aggRaise` models an exception thrown by the group's
aggregation code outside the stations `try` block (it propagates to the
handlers on lines 202-215); `stationsRaise` models an exception inside the
stations `try` block of lines 158-164 (caught on the spot). -/
structure GroupInput where
  name : String
  rows : List PRow
  stationsRaise : Bool
  aggRaise : Bool
deriving DecidableEq

/-- One element of `county_data` (lines 140-169). -/
structure CountyEntry where
  county : String
  total_voters : ℤ
  votes_cast : ℤ
  attendance_percentage : ℚ
  male_voters : Option ℤ
  female_voters : Option ℤ
  ageGroup : Fin 5 → Option ℤ
  urban_stations : Option ℕ
  rural_stations : Option ℕ
deriving DecidableEq

/-- The body of the group loop for one group that raises no exception
outside the stations block (lines 122-169). -/
def entryOf (g : GroupInput) : CountyEntry :=
  { county := g.name
    total_voters := totalVoters g.rows
    votes_cast := votesCast g.rows
    attendance_percentage := round2 (attendanceRaw g.rows)
    male_voters := safe_sum_multiple (maleColVals g.rows)
    female_voters := safe_sum_multiple (femaleColVals g.rows)
    ageGroup := fun i => safe_sum_multiple (ageColVals g.rows i)
    urban_stations := if g.stationsRaise then none else some (stationsOfType g.rows "U")
    rural_stations := if g.stationsRaise then none else some (stationsOfType g.rows "R") }

/-- Result of `process_presence_data`: either the aggregated table or the
full fallback to `generate_attendance_data` (lines 202-215). -/
inductive AggResult
  | fallback
  | table (rows : List CountyEntry)
deriving DecidableEq

/-- `process_presence_data`, restricted to the grouped-processing stage
(lines 112-173): the file-reading and column-validation failures ahead of
it also fall back, which only adds further fallback cases.  If any group
raises outside the stations `try` block the exception reaches the
handlers of lines 202-215 and the whole job falls back; otherwise groups
named "" or "Unknown" are skipped (lines 117-120) and every other group
yields one `CountyEntry`. -/
def process_presence_data (groups : List GroupInput) : AggResult :=
  if groups.any (·.aggRaise) then AggResult.fallback
  else AggResult.table
    ((groups.filter (fun g => !(g.name = "" || g.name = "Unknown"))).map entryOf)

/-! ## `app.py`: `get_clustering` (lines 472-698)

The KMeans fit, the StandardScaler and the PCA projection are external
sklearn collaborators; the claims under test concern the grouping, the
zero-vote filter, the cluster-count reduction and the emitted percentage
features, all of which are embedded below. -/

/-- One row of the clustering source CSV (`presence_now.csv`). -/
structure CRow where
  judet : String                 -- column 'Judet'
  localitate : String            -- column 'Localitate'
  sectie : String                -- column 'Nume sectie de votare'
  registered : ℤ                 -- column 'Înscriși pe liste permanente'
  lp : ℤ                         -- column 'LP' (votes cast)
  demo : Fin 10 → ℤ              -- the ten gender-age columns
deriving DecidableEq

/-- The three values of the `level` query parameter (lines 505-512). -/
inductive CLevel
  | county
  | town
  | polling
deriving DecidableEq

/-- `group_by_columns` applied to a row (lines 505-510). -/
def groupKey : CLevel → CRow → List String
  | CLevel.county, r => [r.judet]
  | CLevel.town, r => [r.judet, r.localitate]
  | CLevel.polling, r => [r.judet, r.localitate, r.sectie]

/-- One row of `grouped_df` (lines 515-519). -/
structure CGroup where
  key : List String
  registered : ℤ
  lp : ℤ
  demo : Fin 10 → ℤ
deriving DecidableEq

/-- `df.groupby(group_by_columns).agg('sum')` (lines 515-519), one output
row per distinct key, each numeric column summed over the key's rows.
(pandas emits groups in sorted key order; the claims are order-free, so
first-occurrence order is used.) -/
def aggGroups (lvl : CLevel) (rows : List CRow) : List CGroup :=
  ((rows.map (groupKey lvl)).dedup).map (fun k =>
    let sel := rows.filter (fun r => groupKey lvl r = k)
    { key := k
      registered := (sel.map (·.registered)).sum
      lp := (sel.map (·.lp)).sum
      demo := fun i => (sel.map (fun r => r.demo i)).sum })

/-- Line 522: `grouped_df = grouped_df[grouped_df['LP'] > 0]`. -/
def filteredGroups (lvl : CLevel) (rows : List CRow) : List CGroup :=
  (aggGroups lvl rows).filter (fun g => 0 < g.lp)

/-- Lines 525-527: the cluster count actually used. -/
def effectiveK (groupCount : ℕ) (k : ℤ) : ℤ :=
  if (groupCount : ℤ) ≤ k then max 2 ((groupCount : ℤ) - 1) else k

/-- Line 531: `(grouped_df[col] / grouped_df['LP'] * 100).clip(0, 100)`. -/
def pctFeature (g : CGroup) (i : Fin 10) : ℚ :=
  min (max ((g.demo i : ℚ) / (g.lp : ℚ) * 100) 0) 100

/-- The response fields of `get_clustering` that the claims mention
(lines 525-527 and 579-585); `warned` records whether the
`logger.warning` of line 527 fired, `data` pairs each emitted group with
its ten `demographics_pct` values. -/
structure ClusterOut where
  cluster_level : CLevel
  n_clusters : ℤ
  warned : Bool
  data : List (CGroup × (Fin 10 → ℚ))

/-- `get_clustering` (lines 472-698) up to the sklearn collaborators. -/
def get_clustering (lvl : CLevel) (rows : List CRow) (k : ℤ) : ClusterOut :=
  let gs := filteredGroups lvl rows
  { cluster_level := lvl
    n_clusters := effectiveK gs.length k
    warned := decide ((gs.length : ℤ) ≤ k)
    data := gs.map (fun g => (g, pctFeature g)) }

/-! ## `app.py`: `get_demographic` (lines 205-397) -/

/-- One row of `attendance.csv` as `get_demographic` sees it after the
estimation block of lines 250-268, i.e. with the sixteen urban/rural
columns populated (either read from the CSV or estimated). -/
structure DRow where
  votes : ℤ                      -- 'votes_cast'
  male : ℤ                       -- 'male_voters'
  female : ℤ                     -- 'female_voters'
  age : Fin 5 → ℤ                -- 'age_18_24' .. 'age_65_plus'
  urbanStationCount : ℤ          -- 'urban_stations'
  ruralStationCount : ℤ          -- 'rural_stations'
  urbanVotes : ℤ                 -- 'urban_votes'
  ruralVotes : ℤ                 -- 'rural_votes'
  urbanMale : ℤ
  urbanFemale : ℤ
  ruralMale : ℤ
  ruralFemale : ℤ
  urbanAge : Fin 5 → ℤ
  ruralAge : Fin 5 → ℤ
deriving DecidableEq

/-- The estimator of line 253: `urban_votes` from station-count shares
(station counts are `nunique` results, hence naturals; when both are zero
the share is `0/0 = NaN`, rounded to NaN and `fillna(0)`-ed to 0). -/
def estUrbanVotes (v : ℤ) (u r : ℕ) : ℤ :=
  if u + r = 0 then 0 else round ((v * u : ℚ) / ((u : ℚ) + (r : ℚ)))

/-- The estimator of line 254, symmetric in the rural station count. -/
def estRuralVotes (v : ℤ) (u r : ℕ) : ℤ :=
  if u + r = 0 then 0 else round ((v * r : ℚ) / ((u : ℚ) + (r : ℚ)))

/-- The percentage fields a demographic output row may carry: `none`
models a key absent from the Python dict (never written because its
guard was false), `some q` a present key with value `q`. The absolute
count fields are not claim-relevant and are omitted. -/
structure DemoPcts where
  malePct : Option ℚ
  femalePct : Option ℚ
  agePct : Fin 5 → Option ℚ
  urbanPct : Option ℚ
  ruralPct : Option ℚ
  urbanMalePct : Option ℚ
  urbanFemalePct : Option ℚ
  ruralMalePct : Option ℚ
  ruralFemalePct : Option ℚ
  urbanAgePct : Fin 5 → Option ℚ
  ruralAgePct : Fin 5 → Option ℚ

/-- The percentage block attached to one county row (lines 342-382).
Each field records the exact nest of guards under which the code writes
the corresponding dict key: everything sits inside `if county_votes > 0`;
the urban/rural block additionally inside `if has_urban_rural_data` (the
flag `h`); the urban-scoped entries inside `if urban_votes > 0` and the
rural-scoped ones inside `if rural_votes > 0`, independently. -/
def countyPcts (r : DRow) (h : Bool) : DemoPcts :=
  { malePct := if 0 < r.votes then some (round1 ((r.male : ℚ) / (r.votes : ℚ) * 100)) else none
    femalePct := if 0 < r.votes then some (round1 ((r.female : ℚ) / (r.votes : ℚ) * 100)) else none
    agePct := fun i =>
      if 0 < r.votes then some (round1 ((r.age i : ℚ) / (r.votes : ℚ) * 100)) else none
    urbanPct :=
      if 0 < r.votes then
        if h then some (round1 ((r.urbanVotes : ℚ) / (r.votes : ℚ) * 100)) else none
      else none
    ruralPct :=
      if 0 < r.votes then
        if h then some (round1 ((r.ruralVotes : ℚ) / (r.votes : ℚ) * 100)) else none
      else none
    urbanMalePct :=
      if 0 < r.votes then
        if h then
          if 0 < r.urbanVotes then
            some (round1 ((r.urbanMale : ℚ) / (r.urbanVotes : ℚ) * 100))
          else none
        else none
      else none
    urbanFemalePct :=
      if 0 < r.votes then
        if h then
          if 0 < r.urbanVotes then
            some (round1 ((r.urbanFemale : ℚ) / (r.urbanVotes : ℚ) * 100))
          else none
        else none
      else none
    ruralMalePct :=
      if 0 < r.votes then
        if h then
          if 0 < r.ruralVotes then
            some (round1 ((r.ruralMale : ℚ) / (r.ruralVotes : ℚ) * 100))
          else none
        else none
      else none
    ruralFemalePct :=
      if 0 < r.votes then
        if h then
          if 0 < r.ruralVotes then
            some (round1 ((r.ruralFemale : ℚ) / (r.ruralVotes : ℚ) * 100))
          else none
        else none
      else none
    urbanAgePct := fun i =>
      if 0 < r.votes then
        if h then
          if 0 < r.urbanVotes then
            some (round1 ((r.urbanAge i : ℚ) / (r.urbanVotes : ℚ) * 100))
          else none
        else none
      else none
    ruralAgePct := fun i =>
      if 0 < r.votes then
        if h then
          if 0 < r.ruralVotes then
            some (round1 ((r.ruralAge i : ℚ) / (r.ruralVotes : ℚ) * 100))
          else none
        else none
      else none }

/-- `national_totals` (lines 224-272): field-wise column sums over the
county rows. -/
def nationalTotals (rows : List DRow) : DRow :=
  { votes := (rows.map (·.votes)).sum
    male := (rows.map (·.male)).sum
    female := (rows.map (·.female)).sum
    age := fun i => (rows.map (fun r => r.age i)).sum
    urbanStationCount := (rows.map (·.urbanStationCount)).sum
    ruralStationCount := (rows.map (·.ruralStationCount)).sum
    urbanVotes := (rows.map (·.urbanVotes)).sum
    ruralVotes := (rows.map (·.ruralVotes)).sum
    urbanMale := (rows.map (·.urbanMale)).sum
    urbanFemale := (rows.map (·.urbanFemale)).sum
    ruralMale := (rows.map (·.ruralMale)).sum
    ruralFemale := (rows.map (·.ruralFemale)).sum
    urbanAge := fun i => (rows.map (fun r => r.urbanAge i)).sum
    ruralAge := fun i => (rows.map (fun r => r.ruralAge i)).sum }

/-- The national percentage block (lines 276-316): the same guard
structure as the county block of lines 342-382, applied to the summed
totals. -/
def nationalPcts (rows : List DRow) (h : Bool) : DemoPcts :=
  countyPcts (nationalTotals rows) h

/-! ## `update_data.py`: `update_existing_data` (lines 290-363) -/

/-- The attendance perturbation for one row (lines 304-313).
`f` is `change_factor` drawn from `random.uniform(0.005, 0.02)`;
`int(total_voters * change_factor)` truncates toward zero. -/
def updVotes (total v : ℤ) (f : ℚ) : ℤ :=
  min total (v + truncQ ((total : ℚ) * f))

/-- Line 312: the recomputed attendance percentage for one row. -/
def updAttendance (total v : ℤ) (f : ℚ) : ℚ :=
  round2 (if 0 < total then ((updVotes total v f : ℚ) / (total : ℚ)) * 100 else 0)

/-- The results perturbation for one row (lines 335-348): `cur` is the
row's five candidate columns (`none` models a NaN cell, read as 0), `adj`
the five `random.uniform(-0.5, 0.5)` draws.  Shares are jittered, clamped
non-negative, renormalised to sum 100 (or set to 20.0 each when the
clamped sum is zero), and rounded to 2 decimals. -/
def updShares (cur : Fin 5 → Option ℚ) (adj : Fin 5 → ℚ) : Fin 5 → ℚ :=
  fun i => max 0 ((cur i).getD 0 + adj i)

def updResultsRow (cur : Fin 5 → Option ℚ) (adj : Fin 5 → ℚ) : Fin 5 → ℚ :=
  fun i => round2 (if 0 < ∑ j, updShares cur adj j then
    updShares cur adj i / (∑ j, updShares cur adj j) * 100 else 20)

/-! ## Shared lemmas about the rounding and summation helpers -/

theorem round2_zero : round2 0 = 0 := by
  unfold round2
  norm_num

theorem round2_bounds (q : ℚ) (h0 : 0 ≤ q) (h1 : q ≤ 100) :
    0 ≤ round2 q ∧ round2 q ≤ 100 := by
  have habs := abs_sub_round (q * 100)
  rw [abs_le] at habs
  obtain ⟨hl, hr⟩ := habs
  have hz0 : (0 : ℤ) ≤ round (q * 100) := by
    have hq : ((-1 : ℤ) : ℚ) < (round (q * 100) : ℚ) := by
      push_cast
      linarith
    have : (-1 : ℤ) < round (q * 100) := by exact_mod_cast hq
    omega
  have hz1 : round (q * 100) ≤ (10000 : ℤ) := by
    have hq : (round (q * 100) : ℚ) < ((10001 : ℤ) : ℚ) := by
      push_cast
      linarith
    have : round (q * 100) < (10001 : ℤ) := by exact_mod_cast hq
    omega
  unfold round2
  constructor
  · have : (0 : ℚ) ≤ (round (q * 100) : ℚ) := by exact_mod_cast hz0
    positivity
  · rw [div_le_iff₀ (by norm_num : (0 : ℚ) < 100)]
    have : ((round (q * 100) : ℤ) : ℚ) ≤ ((10000 : ℤ) : ℚ) := by exact_mod_cast hz1
    push_cast at this ⊢
    linarith

theorem abs_round2_sub (q : ℚ) : |round2 q - q| ≤ 1 / 200 := by
  have habs := abs_sub_round (q * 100)
  have hkey : round2 q - q = -((q * 100 - (round (q * 100) : ℚ)) / 100) := by
    unfold round2
    ring
  rw [hkey, abs_neg, abs_div, abs_of_pos (by norm_num : (0 : ℚ) < 100)]
  linarith

theorem colSum_eq_coerced (vals : List (Option ℤ)) :
    colSum vals = (vals.map (fun v => v.getD 0)).sum := by
  induction vals with
  | nil => rfl
  | cons v vs ih =>
      cases v with
      | none => simpa [colSum, List.filterMap_cons] using ih
      | some n => simpa [colSum, List.filterMap_cons] using congrArg (n + ·) ih

theorem safe_sum_foldl (cvs : List (List (Option ℤ))) (a : ℤ) :
    cvs.foldl (fun acc vals => Option.map (fun t => t + colSum vals) acc) (some a)
      = some (a + (cvs.map colSum).sum) := by
  induction cvs generalizing a with
  | nil => simp
  | cons v vs ih =>
      rw [List.foldl_cons]
      simp only [Option.map_some']
      rw [ih (a + colSum v)]
      simp [add_assoc]

/-- `safe_sum_multiple` always returns the sum of the per-column sums;
the `None` branch of line 134 is unreachable. -/
theorem safe_sum_multiple_eq (cvs : List (List (Option ℤ))) :
    safe_sum_multiple cvs = some ((cvs.map colSum).sum) := by
  unfold safe_sum_multiple
  rw [safe_sum_foldl cvs 0]
  simp

/-! ## C1: attendance percentage of an aggregated county group -/

/-- C1 (amended): in `process_presence_data`, a group's `total_voters` and
`votes_cast` are the integer column sums; `attendance_percentage` equals
`round2 (votes_cast / total_voters * 100)` when `total_voters > 0` and `0`
when it is `0`; and it lies in `[0, 100]` provided the summed votes are
non-negative and do not exceed the summed registered voters.  (The claim's
unconditional `[0, 100]` bound fails: see `C1_counterexample`.) -/
theorem C1_attendance (g : GroupInput) :
    (entryOf g).total_voters = (g.rows.map (fun r => r.registered)).sum
  ∧ (entryOf g).votes_cast = (g.rows.map (fun r => r.votes)).sum
  ∧ (0 < totalVoters g.rows →
      (entryOf g).attendance_percentage =
        round2 ((votesCast g.rows : ℚ) / (totalVoters g.rows : ℚ) * 100))
  ∧ (totalVoters g.rows = 0 → (entryOf g).attendance_percentage = 0)
  ∧ (0 ≤ votesCast g.rows → votesCast g.rows ≤ totalVoters g.rows →
      0 ≤ (entryOf g).attendance_percentage ∧ (entryOf g).attendance_percentage ≤ 100) := by
  refine ⟨rfl, rfl, ?_, ?_, ?_⟩
  · intro hpos
    simp [entryOf, attendanceRaw, hpos]
  · intro hz
    simp [entryOf, attendanceRaw, hz, round2_zero]
  · intro hv hvt
    by_cases hpos : 0 < totalVoters g.rows
    · have hq0 : (0 : ℚ) ≤ (votesCast g.rows : ℚ) / (totalVoters g.rows : ℚ) * 100 := by
        have h1 : (0 : ℚ) ≤ (votesCast g.rows : ℚ) := by exact_mod_cast hv
        have h2 : (0 : ℚ) < (totalVoters g.rows : ℚ) := by exact_mod_cast hpos
        positivity
      have hq1 : (votesCast g.rows : ℚ) / (totalVoters g.rows : ℚ) * 100 ≤ 100 := by
        have h2 : (0 : ℚ) < (totalVoters g.rows : ℚ) := by exact_mod_cast hpos
        have h3 : (votesCast g.rows : ℚ) ≤ (totalVoters g.rows : ℚ) := by exact_mod_cast hvt
        rw [div_mul_eq_mul_div, div_le_iff₀ h2]
        nlinarith
      have := round2_bounds _ hq0 hq1
      simpa [entryOf, attendanceRaw, hpos] using this
    · have hz : ¬ (0 < totalVoters g.rows) := hpos
      constructor <;> simp [entryOf, attendanceRaw, hz, round2_zero]

/-- C1 counterexample: a single-station group with 1 registered voter and
2 votes cast is aggregated to `attendance_percentage = 200 ∉ [0, 100]`. -/
theorem C1_counterexample :
    (entryOf ⟨"Alba", [⟨1, 2, fun _ => some 0, fun _ => some 0, none, 1⟩],
        false, false⟩).attendance_percentage = 200
  ∧ ¬ ((entryOf ⟨"Alba", [⟨1, 2, fun _ => some 0, fun _ => some 0, none, 1⟩],
        false, false⟩).attendance_percentage ≤ 100) := by
  constructor <;> norm_num [entryOf, attendanceRaw, totalVoters, votesCast, round2, round_eq]

/-- C1 witness: instantiates `C1_attendance` on a concrete two-row group
with 10 registered voters and 4 votes, evaluating every conclusion. -/
theorem C1_attendance_witness :
    (0 : ℤ) < totalVoters [⟨4, 1, fun _ => some 0, fun _ => some 0, none, 1⟩,
        ⟨6, 3, fun _ => some 0, fun _ => some 0, none, 2⟩]
  ∧ (entryOf ⟨"Cluj", [⟨4, 1, fun _ => some 0, fun _ => some 0, none, 1⟩,
        ⟨6, 3, fun _ => some 0, fun _ => some 0, none, 2⟩], false, false⟩).attendance_percentage
      = round2 ((4 : ℚ) / 10 * 100)
  ∧ 0 ≤ (entryOf ⟨"Cluj", [⟨4, 1, fun _ => some 0, fun _ => some 0, none, 1⟩,
        ⟨6, 3, fun _ => some 0, fun _ => some 0, none, 2⟩], false, false⟩).attendance_percentage := by
  have h := C1_attendance ⟨"Cluj", [⟨4, 1, fun _ => some 0, fun _ => some 0, none, 1⟩,
        ⟨6, 3, fun _ => some 0, fun _ => some 0, none, 2⟩], false, false⟩
  have hpos : (0 : ℤ) < totalVoters [⟨4, 1, fun _ => some 0, fun _ => some 0, none, 1⟩,
        ⟨6, 3, fun _ => some 0, fun _ => some 0, none, 2⟩] := by
    norm_num [totalVoters]
  refine ⟨hpos, ?_, (h.2.2.2.2 (by norm_num [votesCast]) (by norm_num [votesCast, totalVoters])).1⟩
  have h3 := h.2.2.1 hpos
  rw [h3]
  norm_num [votesCast, totalVoters]

/-! ## C2: gender totals from the five age-band columns -/

/-- C2 (amended): `male_voters` / `female_voters` are the integer sums of
the five per-gender age-band columns with every missing or non-numeric
cell coerced to zero; the result is always a number (`some _`): the code
can never emit null for these fields, so a "computed zero" is NOT
distinguishable from "no data" (see `C2_counterexample`). -/
theorem C2_gender_sums (g : GroupInput) :
    (entryOf g).male_voters
      = some (((maleColVals g.rows).map
          (fun vals => (vals.map (fun v => v.getD 0)).sum)).sum)
  ∧ (entryOf g).female_voters
      = some (((femaleColVals g.rows).map
          (fun vals => (vals.map (fun v => v.getD 0)).sum)).sum)
  ∧ ((entryOf g).male_voters).isSome = true
  ∧ ((entryOf g).female_voters).isSome = true := by
  have hm : (entryOf g).male_voters = some (((maleColVals g.rows).map colSum).sum) :=
    safe_sum_multiple_eq (maleColVals g.rows)
  have hf : (entryOf g).female_voters = some (((femaleColVals g.rows).map colSum).sum) :=
    safe_sum_multiple_eq (femaleColVals g.rows)
  have hcoerce : ∀ cvs : List (List (Option ℤ)),
      cvs.map colSum = cvs.map (fun vals => (vals.map (fun v => v.getD 0)).sum) := by
    intro cvs
    exact List.map_congr_left (fun vals _ => colSum_eq_coerced vals)
  refine ⟨?_, ?_, ?_, ?_⟩
  · rw [hm, hcoerce]
  · rw [hf, hcoerce]
  · rw [hm]; rfl
  · rw [hf]; rfl

/-- C2 counterexample: a group whose five male age-band columns hold no
valid numeric value at all (every cell non-numeric) still gets
`male_voters = some 0`, not null — "no data" is emitted as the number 0. -/
theorem C2_counterexample :
    (entryOf ⟨"Alba", [⟨5, 3, fun _ => none, fun _ => some 1, none, 1⟩],
        false, false⟩).male_voters = some 0
  ∧ (entryOf ⟨"Alba", [⟨5, 3, fun _ => none, fun _ => some 1, none, 1⟩],
        false, false⟩).male_voters ≠ none := by
  constructor
  · decide
  · decide

/-! ## C3: error handling on the aggregation path -/

/-- C3 (amended): an exception raised by a group's aggregation outside the
urban/rural stations `try` block escapes to the handlers of lines 202-215
and the whole job falls back to the random data generator — no group of
the current run survives.  But an exception raised inside the stations
`try` block of lines 158-164 is caught on the spot: the run completes and
only that group's `urban_stations` / `rural_stations` become null, so the
claim's "any processing exception invalidates the whole run" fails (see
`C3_counterexample`). -/
theorem C3_error_handling (groups : List GroupInput) :
    ((∃ g ∈ groups, g.aggRaise = true) →
        process_presence_data groups = AggResult.fallback)
  ∧ ((∀ g ∈ groups, g.aggRaise = false) →
        process_presence_data groups = AggResult.table
          ((groups.filter (fun g => !(g.name = "" || g.name = "Unknown"))).map entryOf))
  ∧ (∀ g ∈ groups, g.stationsRaise = true →
        (entryOf g).urban_stations = none ∧ (entryOf g).rural_stations = none) := by
  refine ⟨?_, ?_, ?_⟩
  · intro ⟨g, hg, hr⟩
    have : groups.any (fun g => g.aggRaise) = true := by
      rw [List.any_eq_true]
      exact ⟨g, hg, hr⟩
    simp [process_presence_data, this]
  · intro hall
    have : groups.any (fun g => g.aggRaise) = false := by
      rw [List.any_eq_false]
      intro g hg
      simp [hall g hg]
    simp [process_presence_data, this]
  · intro g _ hs
    constructor <;> simp [entryOf, hs]

/-- C3 counterexample: a run whose single group raises inside the
stations `try` block produces the aggregated table (with null station
counts), not the random-data fallback. -/
theorem C3_counterexample :
    process_presence_data [⟨"Alba", [⟨0, 0, fun _ => some 0, fun _ => some 0, some "U", 1⟩],
        true, false⟩]
      = AggResult.table [entryOf ⟨"Alba",
          [⟨0, 0, fun _ => some 0, fun _ => some 0, some "U", 1⟩], true, false⟩]
  ∧ (entryOf ⟨"Alba", [⟨0, 0, fun _ => some 0, fun _ => some 0, some "U", 1⟩],
        true, false⟩).urban_stations = none
  ∧ process_presence_data [⟨"Alba", [⟨0, 0, fun _ => some 0, fun _ => some 0, some "U", 1⟩],
        true, false⟩] ≠ AggResult.fallback := by
  refine ⟨?_, by simp [entryOf], ?_⟩
  · simp [process_presence_data]
  · simp [process_presence_data]

/-- C3 witness: instantiates `C3_error_handling` on a concrete run whose
single group raises outside the stations block, yielding the fallback. -/
theorem C3_error_handling_witness :
    process_presence_data [⟨"Cluj", [], false, true⟩] = AggResult.fallback := by
  exact (C3_error_handling [⟨"Cluj", [], false, true⟩]).1
    ⟨⟨"Cluj", [], false, true⟩, by simp, rfl⟩

/-! ## C4: the name normalizer -/

/-- C4 (confirmed): `get_full_county_name` returns "Unknown" on a missing
name; on a name whose uppercased-and-trimmed form is in the fixed table it
returns the mapped canonical name; otherwise it returns the trimmed but
not case-altered original; "BUCURESTI" maps to "Bucharest" and the
unmapped "Xyzabc" passes through verbatim. -/
theorem C4_name_normalizer :
    get_full_county_name none = "Unknown"
  ∧ (∀ s full : String,
      COUNTY_NAME_MAP.lookup (trimStr (upperStr s)) = some full →
        get_full_county_name (some s) = full)
  ∧ (∀ s : String,
      COUNTY_NAME_MAP.lookup (trimStr (upperStr s)) = none →
        get_full_county_name (some s) = trimStr s)
  ∧ get_full_county_name (some "BUCURESTI") = "Bucharest"
  ∧ get_full_county_name (some "Xyzabc") = "Xyzabc" := by
  refine ⟨rfl, ?_, ?_, by decide, by decide⟩
  · intro s full h
    simp [get_full_county_name, h]
  · intro s h
    simp [get_full_county_name, h]

/-- C4 witness: applies `C4_name_normalizer` to the mapped spelling
" bucuresti " and the unmapped "Zzz". -/
theorem C4_name_normalizer_witness :
    get_full_county_name (some " bucuresti ") = "Bucharest"
  ∧ get_full_county_name (some "Zzz") = "Zzz" := by
  constructor
  · exact C4_name_normalizer.2.1 " bucuresti " "Bucharest" (by decide)
  · exact C4_name_normalizer.2.2.1 "Zzz" (by decide)

/-! ## C5: cluster-count reduction on small inputs -/

/-- C5 (confirmed): whenever the post-filter group count is at most the
requested `k` (equivalently `k > group_count - 1`), `get_clustering` uses
`max 2 (group_count - 1)` clusters, emits a warning, and reports this
effective value in its `n_clusters` field. -/
theorem C5_cluster_reduction (lvl : CLevel) (rows : List CRow) (k : ℤ)
    (h : ((filteredGroups lvl rows).length : ℤ) ≤ k) :
    (get_clustering lvl rows k).n_clusters
        = max 2 (((filteredGroups lvl rows).length : ℤ) - 1)
  ∧ (get_clustering lvl rows k).warned = true
  ∧ (get_clustering lvl rows k).n_clusters = effectiveK (filteredGroups lvl rows).length k
  ∧ (((filteredGroups lvl rows).length : ℤ) ≤ k
      ↔ ((filteredGroups lvl rows).length : ℤ) - 1 < k) := by
  refine ⟨?_, ?_, rfl, by omega⟩
  · simp [get_clustering, effectiveK, h]
  · simp [get_clustering, h]

/-- C5 witness: three county groups with positive votes and requested
`k = 5` reduce to 2 clusters with a warning. -/
theorem C5_cluster_reduction_witness :
    ((filteredGroups CLevel.county
        [⟨"Alba", "a", "s1", 10, 5, fun _ => 1⟩,
         ⟨"Arad", "b", "s2", 10, 6, fun _ => 1⟩,
         ⟨"Cluj", "c", "s3", 10, 7, fun _ => 1⟩]).length : ℤ) ≤ 5
  ∧ (get_clustering CLevel.county
        [⟨"Alba", "a", "s1", 10, 5, fun _ => 1⟩,
         ⟨"Arad", "b", "s2", 10, 6, fun _ => 1⟩,
         ⟨"Cluj", "c", "s3", 10, 7, fun _ => 1⟩] 5).n_clusters = 2
  ∧ (get_clustering CLevel.county
        [⟨"Alba", "a", "s1", 10, 5, fun _ => 1⟩,
         ⟨"Arad", "b", "s2", 10, 6, fun _ => 1⟩,
         ⟨"Cluj", "c", "s3", 10, 7, fun _ => 1⟩] 5).warned = true := by
  have h : ((filteredGroups CLevel.county
        [⟨"Alba", "a", "s1", 10, 5, fun _ => 1⟩,
         ⟨"Arad", "b", "s2", 10, 6, fun _ => 1⟩,
         ⟨"Cluj", "c", "s3", 10, 7, fun _ => 1⟩]).length : ℤ) ≤ 5 := by decide
  obtain ⟨h1, h2, _, _⟩ := C5_cluster_reduction CLevel.county
    [⟨"Alba", "a", "s1", 10, 5, fun _ => 1⟩,
     ⟨"Arad", "b", "s2", 10, 6, fun _ => 1⟩,
     ⟨"Cluj", "c", "s3", 10, 7, fun _ => 1⟩] 5 h
  refine ⟨h, ?_, h2⟩
  rw [h1]
  decide

/-! ## C6: zero-vote filtering and feature-percentage safety -/

/-- C6 (confirmed): groups with `votes_cast ≤ 0` are excluded before the
feature computation, and every emitted demographic feature percentage of
a surviving group equals `raw / votes_cast * 100` clamped to `[0, 100]`,
hence lies in `[0, 100]` (in the rational model no NaN or Infinity can
arise since every surviving group has a positive denominator). -/
theorem C6_feature_bounds (lvl : CLevel) (rows : List CRow) (k : ℤ) :
    (∀ g ∈ aggGroups lvl rows, g.lp ≤ 0 → g ∉ filteredGroups lvl rows)
  ∧ (∀ gp ∈ (get_clustering lvl rows k).data,
        0 < gp.1.lp
      ∧ (∀ i, gp.2 i = min (max ((gp.1.demo i : ℚ) / (gp.1.lp : ℚ) * 100) 0) 100)
      ∧ (∀ i, 0 ≤ gp.2 i ∧ gp.2 i ≤ 100)) := by
  constructor
  · intro g _ hle hmem
    rw [filteredGroups, List.mem_filter] at hmem
    have := hmem.2
    simp only [decide_eq_true_eq] at this
    omega
  · intro gp hgp
    simp only [get_clustering, List.mem_map] at hgp
    obtain ⟨g, hg, rfl⟩ := hgp
    rw [filteredGroups, List.mem_filter] at hg
    have hlp : 0 < g.lp := by
      have := hg.2
      simpa using this
    refine ⟨hlp, fun i => rfl, fun i => ?_⟩
    constructor
    · exact le_min (le_max_right _ _) (by norm_num)
    · exact min_le_right _ _

/-- C6 witness: a zero-vote county group is excluded, and the surviving
group's first feature percentage is the clamped ratio `25 ∈ [0, 100]`. -/
theorem C6_feature_bounds_witness :
    (⟨["Alba"], 10, 0, fun _ => 0⟩ : CGroup) ∉
      filteredGroups CLevel.county
        [⟨"Alba", "a", "s1", 10, 0, fun _ => 0⟩, ⟨"Arad", "b", "s2", 10, 4, fun _ => 1⟩]
  ∧ 0 ≤ pctFeature (⟨["Arad"], 10, 4, fun _ => 1⟩ : CGroup) 0
  ∧ pctFeature (⟨["Arad"], 10, 4, fun _ => 1⟩ : CGroup) 0 ≤ 100 := by
  have h := C6_feature_bounds CLevel.county
    [⟨"Alba", "a", "s1", 10, 0, fun _ => 0⟩, ⟨"Arad", "b", "s2", 10, 4, fun _ => 1⟩] 5
  have hg : (⟨["Arad"], 10, 4, fun _ => 1⟩ : CGroup) ∈ filteredGroups CLevel.county
      [⟨"Alba", "a", "s1", 10, 0, fun _ => 0⟩, ⟨"Arad", "b", "s2", 10, 4, fun _ => 1⟩] := by
    decide
  have hmem : ((⟨["Arad"], 10, 4, fun _ => 1⟩ : CGroup),
      pctFeature ⟨["Arad"], 10, 4, fun _ => 1⟩) ∈ (get_clustering CLevel.county
        [⟨"Alba", "a", "s1", 10, 0, fun _ => 0⟩, ⟨"Arad", "b", "s2", 10, 4, fun _ => 1⟩]
        5).data :=
    List.mem_map_of_mem (fun g => (g, pctFeature g)) hg
  refine ⟨h.1 ⟨["Alba"], 10, 0, fun _ => 0⟩ (by decide) (by decide), ?_, ?_⟩
  · exact ((h.2 _ hmem).2.2 0).1
  · exact ((h.2 _ hmem).2.2 0).2

/-! ## C7: division guards in the percentage calculator -/

/-- Helper: a triple-guarded optional value is present exactly when all
three guards hold. -/
theorem isSome_guard3 {α : Type} (a b c : Prop) [Decidable a] [Decidable b]
    [Decidable c] (v : α) :
    (if a then (if b then (if c then some v else none) else none)
      else none).isSome = true ↔ a ∧ b ∧ c := by
  by_cases ha : a <;> by_cases hb : b <;> by_cases hc : c <;> simp [ha, hb, hc]

/-- C7 (confirmed): in `get_demographic`, a row (county or national) with
zero total votes gets none of the percentage fields keyed on that
denominator — they are absent, not zero; urban-scoped sub-percentages are
present exactly when the row has positive votes, the urban/rural flag is
set and `urban_votes > 0`, and rural-scoped ones exactly under the
independent `rural_votes > 0` guard; the national block applies the same
guards to the summed totals. -/
theorem C7_percentage_guards (r : DRow) (h : Bool) (rows : List DRow) :
    (r.votes = 0 →
        (countyPcts r h).malePct = none
      ∧ (countyPcts r h).femalePct = none
      ∧ (∀ i, (countyPcts r h).agePct i = none)
      ∧ (countyPcts r h).urbanPct = none
      ∧ (countyPcts r h).ruralPct = none
      ∧ (countyPcts r h).urbanMalePct = none
      ∧ (countyPcts r h).urbanFemalePct = none
      ∧ (countyPcts r h).ruralMalePct = none
      ∧ (countyPcts r h).ruralFemalePct = none
      ∧ (∀ i, (countyPcts r h).urbanAgePct i = none)
      ∧ (∀ i, (countyPcts r h).ruralAgePct i = none))
  ∧ ((countyPcts r h).urbanMalePct.isSome = true
      ↔ 0 < r.votes ∧ h = true ∧ 0 < r.urbanVotes)
  ∧ ((countyPcts r h).urbanFemalePct.isSome = true
      ↔ 0 < r.votes ∧ h = true ∧ 0 < r.urbanVotes)
  ∧ (∀ i, ((countyPcts r h).urbanAgePct i).isSome = true
      ↔ 0 < r.votes ∧ h = true ∧ 0 < r.urbanVotes)
  ∧ ((countyPcts r h).ruralMalePct.isSome = true
      ↔ 0 < r.votes ∧ h = true ∧ 0 < r.ruralVotes)
  ∧ ((countyPcts r h).ruralFemalePct.isSome = true
      ↔ 0 < r.votes ∧ h = true ∧ 0 < r.ruralVotes)
  ∧ (∀ i, ((countyPcts r h).ruralAgePct i).isSome = true
      ↔ 0 < r.votes ∧ h = true ∧ 0 < r.ruralVotes)
  ∧ nationalPcts rows h = countyPcts (nationalTotals rows) h := by
  refine ⟨?_, ?_, ?_, fun i => ?_, ?_, ?_, fun i => ?_, rfl⟩
  · intro hv
    refine ⟨?_, ?_, fun i => ?_, ?_, ?_, ?_, ?_, ?_, ?_, fun i => ?_, fun i => ?_⟩ <;>
      simp [countyPcts, hv]
  all_goals exact isSome_guard3 _ _ _ _

/-- C7 witness: a county row with zero votes exposes no male percentage;
one with positive votes, the flag set and positive urban votes exposes
the urban male percentage. -/
theorem C7_percentage_guards_witness :
    (countyPcts ⟨0, 0, 0, fun _ => 0, 0, 0, 0, 0, 0, 0, 0, 0, fun _ => 0, fun _ => 0⟩
        true).malePct = none
  ∧ ((countyPcts ⟨10, 5, 5, fun _ => 2, 1, 1, 6, 4, 3, 3, 2, 2, fun _ => 1, fun _ => 1⟩
        true).urbanMalePct).isSome = true := by
  constructor
  · exact ((C7_percentage_guards
      ⟨0, 0, 0, fun _ => 0, 0, 0, 0, 0, 0, 0, 0, 0, fun _ => 0, fun _ => 0⟩ true []).1
      rfl).1
  · exact (C7_percentage_guards
      ⟨10, 5, 5, fun _ => 2, 1, 1, 6, 4, 3, 3, 2, 2, fun _ => 1, fun _ => 1⟩
      true []).2.1.mpr ⟨by norm_num, rfl, by norm_num⟩

/-! ## C8: urban/rural vote estimation -/

/-- C8 (confirmed): the estimator computes `urban_votes` and
`rural_votes` as independently rounded proportional shares, both zero
when there are no stations at all, and their sum differs from
`votes_cast` by at most the rounding tolerance (it is in fact within 1,
hence within the claimed ±2 for the two summed terms). -/
theorem C8_estimator (v : ℤ) (u r : ℕ) :
    (u + r = 0 → estUrbanVotes v u r = 0 ∧ estRuralVotes v u r = 0)
  ∧ (0 < u + r →
        estUrbanVotes v u r = round ((v * u : ℚ) / ((u : ℚ) + (r : ℚ)))
      ∧ estRuralVotes v u r = round ((v * r : ℚ) / ((u : ℚ) + (r : ℚ)))
      ∧ (estUrbanVotes v u r + estRuralVotes v u r - v).natAbs ≤ 2) := by
  constructor
  · intro h0
    constructor <;> simp [estUrbanVotes, estRuralVotes, h0]
  · intro hT
    have hne : u + r ≠ 0 := by omega
    have hTQ : (0 : ℚ) < (u : ℚ) + (r : ℚ) := by
      have : (0 : ℚ) < ((u + r : ℕ) : ℚ) := by exact_mod_cast hT
      push_cast at this
      linarith
    refine ⟨by simp [estUrbanVotes, hne], by simp [estRuralVotes, hne], ?_⟩
    have hx := abs_sub_round ((v * u : ℚ) / ((u : ℚ) + (r : ℚ)))
    have hy := abs_sub_round ((v * r : ℚ) / ((u : ℚ) + (r : ℚ)))
    have hsum : (v * u : ℚ) / ((u : ℚ) + (r : ℚ)) + (v * r : ℚ) / ((u : ℚ) + (r : ℚ))
        = (v : ℚ) := by
      field_simp
      ring
    have hcast : |((estUrbanVotes v u r + estRuralVotes v u r - v : ℤ) : ℚ)| ≤ 1 := by
      simp only [estUrbanVotes, estRuralVotes, if_neg hne]
      rw [abs_le] at hx hy ⊢
      push_cast
      constructor <;> linarith
    have h2 : |(estUrbanVotes v u r + estRuralVotes v u r - v : ℤ)| ≤ 1 := by
      exact_mod_cast hcast
    rw [Int.abs_eq_natAbs] at h2
    have hnat : (estUrbanVotes v u r + estRuralVotes v u r - v).natAbs ≤ 1 := by
      exact_mod_cast h2
    omega

/-- C8 witness: with 10 votes, 3 urban and 4 rural stations the shares
are `round (30/7) = 4` and `round (40/7) = 6`, summing exactly to 10. -/
theorem C8_estimator_witness :
    (0 : ℕ) < 3 + 4
  ∧ estUrbanVotes 10 3 4 = round ((10 * 3 : ℚ) / ((3 : ℚ) + (4 : ℚ)))
  ∧ (estUrbanVotes 10 3 4 + estRuralVotes 10 3 4 - 10).natAbs ≤ 2 := by
  have h := (C8_estimator 10 3 4).2 (by norm_num)
  exact ⟨by norm_num, h.1, h.2.2⟩

/-! ## C9: the results perturbation keeps rows summing to 100 -/

/-- After one perturbation the shares sum to exactly 100 before rounding,
and each of the five roundings moves the sum by at most 1/200. -/
theorem updResultsRow_sum_close (cur : Fin 5 → Option ℚ) (adj : Fin 5 → ℚ) :
    |(∑ i, updResultsRow cur adj i) - 100| ≤ 1 / 10 := by
  have hsum : (∑ i, (if 0 < ∑ j, updShares cur adj j then
      updShares cur adj i / (∑ j, updShares cur adj j) * 100 else 20)) = 100 := by
    by_cases hpos : 0 < ∑ j, updShares cur adj j
    · simp only [if_pos hpos]
      rw [← Finset.sum_mul, ← Finset.sum_div]
      rw [div_self (ne_of_gt hpos)]
      norm_num
    · simp only [if_neg hpos]
      simp [Finset.sum_const, Finset.card_univ]
      norm_num
  have herr : |(∑ i, updResultsRow cur adj i)
      - (∑ i, (if 0 < ∑ j, updShares cur adj j then
          updShares cur adj i / (∑ j, updShares cur adj j) * 100 else 20))| ≤ 5 * (1 / 200) := by
    rw [← Finset.sum_sub_distrib]
    refine le_trans (Finset.abs_sum_le_sum_abs _ _) ?_
    refine le_trans (Finset.sum_le_sum (fun i _ => abs_round2_sub _)) ?_
    simp [Finset.sum_const, Finset.card_univ]
  rw [hsum] at herr
  linarith [herr]

/-- C9 (confirmed): for any numeric candidate-share row and any
adjustments within the ±0.5 bound, one run of the results perturbation
leaves the row summing to 100 within ±0.1, and so does a second run on
the first run's output. -/
theorem C9_results_renorm (cur : Fin 5 → Option ℚ) (adj adj2 : Fin 5 → ℚ)
    (h1 : ∀ i, |adj i| ≤ 1 / 2) (h2 : ∀ i, |adj2 i| ≤ 1 / 2) :
    |(∑ i, updResultsRow cur adj i) - 100| ≤ 1 / 10
  ∧ |(∑ i, updResultsRow (fun i => some (updResultsRow cur adj i)) adj2 i) - 100|
      ≤ 1 / 10 :=
  ⟨updResultsRow_sum_close cur adj,
   updResultsRow_sum_close (fun i => some (updResultsRow cur adj i)) adj2⟩

/-- C9 witness: two consecutive zero-jitter runs on the uniform 20/20/20/20/20
row keep each run's sum within 100 ± 0.1. -/
theorem C9_results_renorm_witness :
    |(∑ i, updResultsRow (fun _ => some 20) (fun _ => 0) i) - 100| ≤ 1 / 10
  ∧ |(∑ i, updResultsRow
        (fun i => some (updResultsRow (fun _ => some 20) (fun _ => 0) i))
        (fun _ => 0) i) - 100| ≤ 1 / 10 :=
  C9_results_renorm (fun _ => some 20) (fun _ => 0) (fun _ => 0)
    (fun i => by norm_num) (fun i => by norm_num)

/-! ## C10: the attendance perturbation preserves the count invariant -/

/-- C10 (confirmed): on a row with `0 ≤ votes_cast ≤ total_voters` and a
change factor in the drawn range `[0.005, 0.02]`, the perturbed vote
count never shrinks, is capped at `total_voters`, and the recomputed
attendance percentage stays in `[0, 100]`. -/
theorem C10_attendance_invariant (total v : ℤ) (f : ℚ)
    (h0 : 0 ≤ v) (h1 : v ≤ total) (hf1 : 1 / 200 ≤ f) (hf2 : f ≤ 1 / 50) :
    v ≤ updVotes total v f
  ∧ updVotes total v f ≤ total
  ∧ 0 ≤ updVotes total v f
  ∧ 0 ≤ updAttendance total v f ∧ updAttendance total v f ≤ 100 := by
  have hT : (0 : ℤ) ≤ total := le_trans h0 h1
  have hTf : (0 : ℚ) ≤ (total : ℚ) * f := by
    have hTQ : (0 : ℚ) ≤ (total : ℚ) := by exact_mod_cast hT
    have hfpos : (0 : ℚ) ≤ f := le_trans (by norm_num) hf1
    positivity
  have hd : (0 : ℤ) ≤ truncQ ((total : ℚ) * f) := by
    rw [truncQ, if_pos hTf]
    exact Int.floor_nonneg.mpr hTf
  have hge : v ≤ updVotes total v f := le_min h1 (by omega)
  have hle : updVotes total v f ≤ total := min_le_left _ _
  have hnn : (0 : ℤ) ≤ updVotes total v f := le_trans h0 hge
  refine ⟨hge, hle, hnn, ?_⟩
  by_cases hpos : 0 < total
  · have hq0 : (0 : ℚ) ≤ (updVotes total v f : ℚ) / (total : ℚ) * 100 := by
      have a1 : (0 : ℚ) ≤ (updVotes total v f : ℚ) := by exact_mod_cast hnn
      have a2 : (0 : ℚ) < (total : ℚ) := by exact_mod_cast hpos
      positivity
    have hq1 : (updVotes total v f : ℚ) / (total : ℚ) * 100 ≤ 100 := by
      have a2 : (0 : ℚ) < (total : ℚ) := by exact_mod_cast hpos
      have a3 : (updVotes total v f : ℚ) ≤ (total : ℚ) := by exact_mod_cast hle
      rw [div_mul_eq_mul_div, div_le_iff₀ a2]
      nlinarith
    have hb := round2_bounds _ hq0 hq1
    constructor <;> simp [updAttendance, hpos] <;> [exact hb.1; exact hb.2]
  · constructor <;> simp [updAttendance, hpos, round2_zero]

/-- C10 witness: a row with 50 of 100 votes and change factor 1/100 is
perturbed to a vote count in `[50, 100]` and an attendance in `[0, 100]`. -/
theorem C10_attendance_invariant_witness :
    (50 : ℤ) ≤ updVotes 100 50 (1 / 100)
  ∧ updVotes 100 50 (1 / 100) ≤ 100
  ∧ 0 ≤ updAttendance 100 50 (1 / 100)
  ∧ updAttendance 100 50 (1 / 100) ≤ 100 := by
  have h := C10_attendance_invariant 100 50 (1 / 100)
    (by norm_num) (by norm_num) (by norm_num) (by norm_num)
  exact ⟨h.1, h.2.1, h.2.2.2.1, h.2.2.2.2⟩

end ElectionRo
